import Mathlib

/-!
Shallow embedding of the teapot-fixture service (Go, Gin) — the in-memory
store (`internal/store/memory.go`), the entity models (`internal/models`),
and the handler logic for lists, creation defaults, patches and steep
numbering.  `time.Time` is modelled as `Int` (comparison is all the code
uses); Go string enums stay `String`; Go maps become association lists with
Go-map insert/lookup/delete semantics; a Go slice expression that can panic
is modelled by an `Option` result (`none` = panic).
-/

namespace TeapotFixture

/-- Wall-clock instants; only ordering matters to the code. -/
abbrev Time := Int

/-- Teapot entity (`internal/models/teapot.go`). Enum-typed fields are strings
in the Go source and stay strings here. -/
structure Teapot where
  id : String
  name : String
  material : String
  capacityMl : Int
  style : String
  description : Option String
  createdAt : Time
  updatedAt : Time
  deriving Repr, DecidableEq

/-- Tea entity (`internal/models/tea.go`). -/
structure Tea where
  id : String
  name : String
  type : String
  origin : Option String
  caffeineLevel : String
  steepTempCelsius : Int
  steepTimeSeconds : Int
  description : Option String
  createdAt : Time
  updatedAt : Time
  deriving Repr, DecidableEq

/-- Brew entity (`internal/models/brew.go`). -/
structure Brew where
  id : String
  teapotId : String
  teaId : String
  status : String
  waterTempCelsius : Int
  notes : Option String
  startedAt : Time
  completedAt : Option Time
  createdAt : Time
  updatedAt : Time
  deriving Repr, DecidableEq

/-- Steep entity (`internal/models/steep.go`). -/
structure Steep where
  id : String
  brewId : String
  steepNumber : Int
  durationSeconds : Int
  rating : Option Int
  notes : Option String
  createdAt : Time
  deriving Repr, DecidableEq

/-- The fixed initial brew status `models.BrewPreparing`. -/
def BrewPreparing : String := "preparing"

/-- Query parameters for listing teapots (`models.TeapotQuery`, with the
embedded `PaginationQuery` flattened). -/
structure TeapotQuery where
  page : Int
  limit : Int
  material : Option String
  style : Option String
  deriving Repr, DecidableEq

/-- Query parameters for listing teas (`models.TeaQuery`). -/
structure TeaQuery where
  page : Int
  limit : Int
  type : Option String
  caffeineLevel : Option String
  deriving Repr, DecidableEq

/-- Query parameters for listing brews (`models.BrewQuery`). -/
structure BrewQuery where
  page : Int
  limit : Int
  status : Option String
  teapotId : Option String
  teaId : Option String
  deriving Repr, DecidableEq

/-- Go map insert `m[k] = v`: overwrite in place if the key exists,
otherwise add the binding. -/
def mapInsert (k : String) (v : α) : List (String × α) → List (String × α)
  | [] => [(k, v)]
  | (k', v') :: rest =>
      if k' = k then (k, v) :: rest else (k', v') :: mapInsert k v rest

/-- Go map lookup `v, ok := m[k]`. -/
def mapLookup (k : String) : List (String × α) → Option α
  | [] => none
  | (k', v') :: rest => if k' = k then some v' else mapLookup k rest

/-- Go map `delete(m, k)`: afterwards no binding for `k` remains (a Go map
holds at most one binding per key, so removing the binding is removing
every pair whose key is `k`). -/
def mapDelete (k : String) : List (String × α) → List (String × α)
  | [] => []
  | (k', v') :: rest =>
      if k' = k then mapDelete k rest else (k', v') :: mapDelete k rest

/-- The keys of a Go map modelled as an association list. -/
def mapKeys (m : List (String × α)) : List String := m.map Prod.fst

/-- The values of a Go map (what `for _, v := range m` iterates over; the
unspecified Go iteration order is fixed here as insertion order, which the
subsequent sort makes irrelevant up to ties). -/
def mapValues (m : List (String × α)) : List α := m.map Prod.snd

/-- Comparison `filtered[i].CreatedAt.After(filtered[j].CreatedAt)` sorts
descending by key; modelled as insertion sort with the reflexive order
`key b ≤ key a`, a valid refinement of Go's unstable `sort.Slice`. -/
def sortByKeyDesc (key : α → Int) (l : List α) : List α :=
  @List.insertionSort α (fun a b => key b ≤ key a) (fun _ _ => Int.decLe _ _) l

/-- Ascending sort by an integer key (`SteepNumber` sort in
`ListSteepsByBrew`). -/
def sortByKeyAsc (key : α → Int) (l : List α) : List α :=
  @List.insertionSort α (fun a b => key a ≤ key b) (fun _ _ => Int.decLe _ _) l

/-- The shared pagination tail of every `List*` store method
(`memory.go`): `total := len(filtered)`, `start := (page-1)*limit`,
`end := start+limit`; empty page when `start >= total`, else clip `end`
and slice.  The Go slice `filtered[start:end]` panics unless
`0 <= start <= end <= len`; `none` models that panic. -/
def paginate (l : List α) (page limit : Int) : Option (List α × Int) :=
  let total : Int := l.length
  let start := (page - 1) * limit
  let stop := start + limit
  if start ≥ total then
    some ([], total)
  else
    let stop' := if stop > total then total else stop
    if 0 ≤ start ∧ start ≤ stop' then
      some ((l.drop start.toNat).take (stop' - start).toNat, total)
    else
      none

/-- The specification's wording of the pagination window: the slice
`[(page-1)*limit, (page-1)*limit + limit)` of the sorted filtered set,
empty (with the true total) when the window start is at or beyond the
count, with the window end clipped to the count.  Stated from the spec, to
be compared with `paginate` which is stated from the code. -/
def windowSpec (l : List α) (page limit : Int) : List α × Int :=
  let total : Int := l.length
  let start := (page - 1) * limit
  if start ≥ total then
    ([], total)
  else
    let stop := min (start + limit) total
    ((l.drop start.toNat).take (stop - start).toNat, total)

/-- The whole in-memory store (`store.MemoryStore`), one table per entity. -/
structure MemoryStore where
  teapots : List (String × Teapot)
  teas : List (String × Tea)
  brews : List (String × Brew)
  steeps : List (String × Steep)
  deriving Repr, DecidableEq

/-- The empty store `NewMemoryStore()`. -/
def MemoryStore.empty : MemoryStore := ⟨[], [], [], []⟩

/-- Filter predicate of `ListTeapots`: an entry survives the two `continue`
checks iff every non-nil filter field matches exactly. -/
def teapotMatches (q : TeapotQuery) (t : Teapot) : Bool :=
  (match q.material with
   | none => true
   | some m => t.material == m) &&
  (match q.style with
   | none => true
   | some st => t.style == st)

/-- Filter predicate of `ListTeas`. -/
def teaMatches (q : TeaQuery) (t : Tea) : Bool :=
  (match q.type with
   | none => true
   | some ty => t.type == ty) &&
  (match q.caffeineLevel with
   | none => true
   | some c => t.caffeineLevel == c)

/-- Filter predicate of `ListBrews`. -/
def brewMatches (q : BrewQuery) (b : Brew) : Bool :=
  (match q.status with
   | none => true
   | some st => b.status == st) &&
  (match q.teapotId with
   | none => true
   | some tid => b.teapotId == tid) &&
  (match q.teaId with
   | none => true
   | some tid => b.teaId == tid)

/-- The filtered, sorted intermediate list of `ListTeapots` just before
slicing. -/
def MemoryStore.teapotsFilteredSorted (s : MemoryStore) (q : TeapotQuery) : List Teapot :=
  sortByKeyDesc (fun t => t.createdAt) ((mapValues s.teapots).filter (teapotMatches q))

/-- Store method `ListTeapots` (`memory.go`). -/
def MemoryStore.listTeapots (s : MemoryStore) (q : TeapotQuery) : Option (List Teapot × Int) :=
  paginate (s.teapotsFilteredSorted q) q.page q.limit

/-- The filtered, sorted intermediate list of `ListTeas`. -/
def MemoryStore.teasFilteredSorted (s : MemoryStore) (q : TeaQuery) : List Tea :=
  sortByKeyDesc (fun t => t.createdAt) ((mapValues s.teas).filter (teaMatches q))

/-- Store method `ListTeas`. -/
def MemoryStore.listTeas (s : MemoryStore) (q : TeaQuery) : Option (List Tea × Int) :=
  paginate (s.teasFilteredSorted q) q.page q.limit

/-- The filtered, sorted intermediate list of `ListBrews`. -/
def MemoryStore.brewsFilteredSorted (s : MemoryStore) (q : BrewQuery) : List Brew :=
  sortByKeyDesc (fun b => b.createdAt) ((mapValues s.brews).filter (brewMatches q))

/-- Store method `ListBrews`. -/
def MemoryStore.listBrews (s : MemoryStore) (q : BrewQuery) : Option (List Brew × Int) :=
  paginate (s.brewsFilteredSorted q) q.page q.limit

/-- The filtered, sorted intermediate list of `ListBrewsByTeapot`. -/
def MemoryStore.brewsOfTeapotSorted (s : MemoryStore) (teapotID : String) : List Brew :=
  sortByKeyDesc (fun b => b.createdAt)
    ((mapValues s.brews).filter (fun b => b.teapotId == teapotID))

/-- Store method `ListBrewsByTeapot`. -/
def MemoryStore.listBrewsByTeapot (s : MemoryStore) (teapotID : String) (page limit : Int) :
    Option (List Brew × Int) :=
  paginate (s.brewsOfTeapotSorted teapotID) page limit

/-- The filtered, sorted intermediate list of `ListSteepsByBrew` — ascending
by `SteepNumber`, unlike the other four lists. -/
def MemoryStore.steepsOfBrewSorted (s : MemoryStore) (brewID : String) : List Steep :=
  sortByKeyAsc (fun st => st.steepNumber)
    ((mapValues s.steeps).filter (fun st => st.brewId == brewID))

/-- Store method `ListSteepsByBrew`. -/
def MemoryStore.listSteepsByBrew (s : MemoryStore) (brewID : String) (page limit : Int) :
    Option (List Steep × Int) :=
  paginate (s.steepsOfBrewSorted brewID) page limit

/-- Store method `CountSteepsByBrew`: the loop counting values with a
matching `BrewID`. -/
def countSteepsByBrew (steeps : List (String × Steep)) (brewID : String) : Nat :=
  ((mapValues steeps).filter (fun st => st.brewId == brewID)).length

/-- Store method `CreateTeapot` (insert under `t.ID`, silent overwrite). -/
def MemoryStore.createTeapot (s : MemoryStore) (t : Teapot) : MemoryStore :=
  { s with teapots := mapInsert t.id t s.teapots }

/-- Store method `GetTeapot`. -/
def MemoryStore.getTeapot (s : MemoryStore) (id : String) : Option Teapot :=
  mapLookup id s.teapots

/-- Store method `UpdateTeapot` (same map write as create). -/
def MemoryStore.updateTeapot (s : MemoryStore) (t : Teapot) : MemoryStore :=
  { s with teapots := mapInsert t.id t s.teapots }

/-- Store method `DeleteTeapot`: reports whether an entry existed. -/
def MemoryStore.deleteTeapot (s : MemoryStore) (id : String) : MemoryStore × Bool :=
  if (mapLookup id s.teapots).isSome then
    ({ s with teapots := mapDelete id s.teapots }, true)
  else
    (s, false)

/-- Store method `CreateTea`. -/
def MemoryStore.createTea (s : MemoryStore) (t : Tea) : MemoryStore :=
  { s with teas := mapInsert t.id t s.teas }

/-- Store method `GetTea`. -/
def MemoryStore.getTea (s : MemoryStore) (id : String) : Option Tea :=
  mapLookup id s.teas

/-- Store method `UpdateTea`. -/
def MemoryStore.updateTea (s : MemoryStore) (t : Tea) : MemoryStore :=
  { s with teas := mapInsert t.id t s.teas }

/-- Store method `DeleteTea`. -/
def MemoryStore.deleteTea (s : MemoryStore) (id : String) : MemoryStore × Bool :=
  if (mapLookup id s.teas).isSome then
    ({ s with teas := mapDelete id s.teas }, true)
  else
    (s, false)

/-- Store method `CreateBrew`. -/
def MemoryStore.createBrew (s : MemoryStore) (b : Brew) : MemoryStore :=
  { s with brews := mapInsert b.id b s.brews }

/-- Store method `GetBrew`. -/
def MemoryStore.getBrew (s : MemoryStore) (id : String) : Option Brew :=
  mapLookup id s.brews

/-- Store method `UpdateBrew`. -/
def MemoryStore.updateBrew (s : MemoryStore) (b : Brew) : MemoryStore :=
  { s with brews := mapInsert b.id b s.brews }

/-- Store method `DeleteBrew`. -/
def MemoryStore.deleteBrew (s : MemoryStore) (id : String) : MemoryStore × Bool :=
  if (mapLookup id s.brews).isSome then
    ({ s with brews := mapDelete id s.brews }, true)
  else
    (s, false)

/-- Store method `CreateSteep`. -/
def MemoryStore.createSteep (s : MemoryStore) (st : Steep) : MemoryStore :=
  { s with steeps := mapInsert st.id st s.steeps }

/-- Store method `GetSteep`. -/
def MemoryStore.getSteep (s : MemoryStore) (id : String) : Option Steep :=
  mapLookup id s.steeps

/-! Handler layer (`internal/handlers`).  Gin binding and JSON encoding are
external; a handler is modelled as a function from the already-bound
request (plus the fresh UUID and current time the Go code obtains from
`uuid.New()` / `time.Now()`, passed as arguments) to an `Except`-style
outcome and the resulting store.  `uuid.Parse` checks on path parameters
are modelled by a boolean argument carrying the parse outcome. -/

/-- Error categories of `models.Error` codes used by the handlers. -/
inductive ErrCode where
  | validationError
  | notFound
  deriving Repr, DecidableEq

/-- An API error (`models.Error`, code plus message). -/
structure ApiErr where
  code : ErrCode
  msg : String
  deriving Repr, DecidableEq

/-- Pagination metadata in list responses (`models.Pagination`). -/
structure Pagination where
  page : Int
  limit : Int
  total : Int
  totalPages : Int
  deriving Repr, DecidableEq

/-- Handler defaulting `if query.Page == 0 { query.Page = 1 }`. -/
def effectivePage (p : Int) : Int := if p = 0 then 1 else p

/-- Handler defaulting `if query.Limit == 0 { query.Limit = 20 }`. -/
def effectiveLimit (l : Int) : Int := if l = 0 then 20 else l

/-- The handlers' total-page computation:
`totalPages := (total + limit - 1) / limit` with Go integer division
(truncation toward zero, `Int.tdiv`), then `if totalPages < 0 { totalPages = 0 }`. -/
def totalPagesCalc (total limit : Int) : Int :=
  let tp := Int.tdiv (total + limit - 1) limit
  if tp < 0 then 0 else tp

/-- Handler `BrewHandler.List`: apply defaults, call `ListBrews`, build the
pagination block. -/
def MemoryStore.brewListH (s : MemoryStore) (q : BrewQuery) :
    Option (List Brew × Pagination) :=
  let page := effectivePage q.page
  let limit := effectiveLimit q.limit
  match s.listBrews { q with page := page, limit := limit } with
  | none => none
  | some (data, total) =>
      some (data, ⟨page, limit, total, totalPagesCalc total limit⟩)

/-- Handler `TeapotHandler.List`. -/
def MemoryStore.teapotListH (s : MemoryStore) (q : TeapotQuery) :
    Option (List Teapot × Pagination) :=
  let page := effectivePage q.page
  let limit := effectiveLimit q.limit
  match s.listTeapots { q with page := page, limit := limit } with
  | none => none
  | some (data, total) =>
      some (data, ⟨page, limit, total, totalPagesCalc total limit⟩)

/-- Bound body of `POST /brews` (`models.CreateBrewRequest`). -/
structure CreateBrewRequest where
  teapotId : String
  teaId : String
  waterTempCelsius : Option Int
  notes : Option String
  deriving Repr, DecidableEq

/-- Bound body of `POST /brews/:id/steeps` (`models.CreateSteepRequest`). -/
structure CreateSteepRequest where
  durationSeconds : Int
  rating : Option Int
  notes : Option String
  deriving Repr, DecidableEq

/-- Bound body of `PATCH /teapots/:id` (`models.PatchTeapotRequest`). -/
structure PatchTeapotRequest where
  name : Option String
  material : Option String
  capacityMl : Option Int
  style : Option String
  description : Option String
  deriving Repr, DecidableEq

/-- Bound body of `PATCH /teas/:id` (`models.PatchTeaRequest`). -/
structure PatchTeaRequest where
  name : Option String
  type : Option String
  origin : Option String
  caffeineLevel : Option String
  steepTempCelsius : Option Int
  steepTimeSeconds : Option Int
  description : Option String
  deriving Repr, DecidableEq

/-- Bound body of `PATCH /brews/:id` (`models.PatchBrewRequest`). -/
structure PatchBrewRequest where
  status : Option String
  notes : Option String
  completedAt : Option Time
  deriving Repr, DecidableEq

/-- Handler `BrewHandler.Create`: verify the teapot exists, verify the tea
exists (both failures are `VALIDATION_ERROR`), default the water
temperature from the tea, build the brew with status `preparing` and all
three timestamps set to `now`, insert it. -/
def MemoryStore.brewCreateH (s : MemoryStore) (req : CreateBrewRequest)
    (newID : String) (now : Time) : Except ApiErr Brew × MemoryStore :=
  if (s.getTeapot req.teapotId).isNone then
    (.error ⟨.validationError, "Teapot not found"⟩, s)
  else
    match s.getTea req.teaId with
    | none => (.error ⟨.validationError, "Tea not found"⟩, s)
    | some tea =>
        let waterTemp :=
          match req.waterTempCelsius with
          | some w => w
          | none => tea.steepTempCelsius
        let brew : Brew :=
          { id := newID
            teapotId := req.teapotId
            teaId := req.teaId
            status := BrewPreparing
            waterTempCelsius := waterTemp
            notes := req.notes
            startedAt := now
            completedAt := none
            createdAt := now
            updatedAt := now }
        (.ok brew, s.createBrew brew)

/-- Handler `BrewHandler.CreateSteep`: reject a malformed brew id
(`idOk` carries the `uuid.Parse` outcome), 404 when the brew is absent,
otherwise assign `steepNumber = CountSteepsByBrew(brewID) + 1` and insert. -/
def MemoryStore.createSteepH (s : MemoryStore) (brewID : String) (idOk : Bool)
    (req : CreateSteepRequest) (newID : String) (now : Time) :
    Except ApiErr Steep × MemoryStore :=
  if !idOk then
    (.error ⟨.validationError, "Invalid brew ID format"⟩, s)
  else if (s.getBrew brewID).isNone then
    (.error ⟨.notFound, "Brew not found"⟩, s)
  else
    let steep : Steep :=
      { id := newID
        brewId := brewID
        steepNumber := (countSteepsByBrew s.steeps brewID : Int) + 1
        durationSeconds := req.durationSeconds
        rating := req.rating
        notes := req.notes
        createdAt := now }
    (.ok steep, s.createSteep steep)

/-- The `Apply patches` block of `TeapotHandler.Patch`: each non-nil request
field overwrites the stored field, `UpdatedAt` is refreshed to the current
time, every other field keeps its prior value. -/
def applyTeapotPatch (existing : Teapot) (req : PatchTeapotRequest) (now : Time) : Teapot :=
  { existing with
    name := match req.name with | some v => v | none => existing.name
    material := match req.material with | some v => v | none => existing.material
    capacityMl := match req.capacityMl with | some v => v | none => existing.capacityMl
    style := match req.style with | some v => v | none => existing.style
    description :=
      match req.description with | some v => some v | none => existing.description
    updatedAt := now }

/-- Handler `TeapotHandler.Patch`. -/
def MemoryStore.teapotPatchH (s : MemoryStore) (id : String) (idOk : Bool)
    (req : PatchTeapotRequest) (now : Time) : Except ApiErr Teapot × MemoryStore :=
  if !idOk then
    (.error ⟨.validationError, "Invalid teapot ID format"⟩, s)
  else
    match s.getTeapot id with
    | none => (.error ⟨.notFound, "Teapot not found"⟩, s)
    | some existing =>
        let t := applyTeapotPatch existing req now
        (.ok t, s.updateTeapot t)

/-- The `Apply patches` block of `TeaHandler.Patch`. -/
def applyTeaPatch (existing : Tea) (req : PatchTeaRequest) (now : Time) : Tea :=
  { existing with
    name := match req.name with | some v => v | none => existing.name
    type := match req.type with | some v => v | none => existing.type
    origin := match req.origin with | some v => some v | none => existing.origin
    caffeineLevel :=
      match req.caffeineLevel with | some v => v | none => existing.caffeineLevel
    steepTempCelsius :=
      match req.steepTempCelsius with | some v => v | none => existing.steepTempCelsius
    steepTimeSeconds :=
      match req.steepTimeSeconds with | some v => v | none => existing.steepTimeSeconds
    description :=
      match req.description with | some v => some v | none => existing.description
    updatedAt := now }

/-- Handler `TeaHandler.Patch`. -/
def MemoryStore.teaPatchH (s : MemoryStore) (id : String) (idOk : Bool)
    (req : PatchTeaRequest) (now : Time) : Except ApiErr Tea × MemoryStore :=
  if !idOk then
    (.error ⟨.validationError, "Invalid tea ID format"⟩, s)
  else
    match s.getTea id with
    | none => (.error ⟨.notFound, "Tea not found"⟩, s)
    | some existing =>
        let t := applyTeaPatch existing req now
        (.ok t, s.updateTea t)

/-- The `Apply patches` block of `BrewHandler.Patch`. -/
def applyBrewPatch (existing : Brew) (req : PatchBrewRequest) (now : Time) : Brew :=
  { existing with
    status := match req.status with | some v => v | none => existing.status
    notes := match req.notes with | some v => some v | none => existing.notes
    completedAt :=
      match req.completedAt with | some v => some v | none => existing.completedAt
    updatedAt := now }

/-- Handler `BrewHandler.Patch`. -/
def MemoryStore.brewPatchH (s : MemoryStore) (id : String) (idOk : Bool)
    (req : PatchBrewRequest) (now : Time) : Except ApiErr Brew × MemoryStore :=
  if !idOk then
    (.error ⟨.validationError, "Invalid brew ID format"⟩, s)
  else
    match s.getBrew id with
    | none => (.error ⟨.notFound, "Brew not found"⟩, s)
    | some existing =>
        let b := applyBrewPatch existing req now
        (.ok b, s.updateBrew b)

/-! Helper lemmas about the map model, the sorts and `paginate`. -/

theorem mapLookup_insert_self (k : String) (v : α) (m : List (String × α)) :
    mapLookup k (mapInsert k v m) = some v := by
  induction m with
  | nil => simp [mapInsert, mapLookup]
  | cons p rest ih =>
      obtain ⟨k', v'⟩ := p
      by_cases h : k' = k
      · simp [mapInsert, mapLookup, h]
      · simp [mapInsert, mapLookup, h, ih]

theorem mapLookup_delete_self (k : String) (m : List (String × α)) :
    mapLookup k (mapDelete k m) = none := by
  induction m with
  | nil => simp [mapDelete, mapLookup]
  | cons p rest ih =>
      obtain ⟨k', v'⟩ := p
      by_cases h : k' = k
      · simp [mapDelete, h, ih]
      · simp [mapDelete, mapLookup, h, ih]

theorem mapInsert_fresh (k : String) (v : α) (m : List (String × α))
    (h : k ∉ mapKeys m) : mapInsert k v m = m ++ [(k, v)] := by
  induction m with
  | nil => simp [mapInsert]
  | cons p rest ih =>
      obtain ⟨k', v'⟩ := p
      simp only [mapKeys, List.map_cons, List.mem_cons] at h
      push_neg at h
      have hk : ¬ k' = k := fun hh => h.1 hh.symm
      simp [mapInsert, hk, ih (by simpa [mapKeys] using h.2)]

theorem countSteepsByBrew_insert_fresh (k : String) (st : Steep)
    (m : List (String × Steep)) (bid : String) (h : k ∉ mapKeys m) :
    countSteepsByBrew (mapInsert k st m) bid =
      countSteepsByBrew m bid + (if st.brewId = bid then 1 else 0) := by
  rw [countSteepsByBrew, mapInsert_fresh k st m h]
  by_cases hb : st.brewId = bid
  · simp [countSteepsByBrew, mapValues, List.filter_append, hb]
  · simp [countSteepsByBrew, mapValues, List.filter_append, hb]

theorem mapKeys_insert_fresh (k : String) (v : α) (m : List (String × α))
    (h : k ∉ mapKeys m) : mapKeys (mapInsert k v m) = mapKeys m ++ [k] := by
  rw [mapInsert_fresh k v m h]
  simp [mapKeys]

theorem sorted_sortByKeyDesc (key : α → Int) (l : List α) :
    (sortByKeyDesc key l).Pairwise (fun a b => key b ≤ key a) := by
  letI : DecidableRel (fun a b : α => key b ≤ key a) := fun _ _ => Int.decLe _ _
  letI : IsTotal α (fun a b => key b ≤ key a) := ⟨fun a b => le_total (key b) (key a)⟩
  letI : IsTrans α (fun a b => key b ≤ key a) :=
    ⟨fun _ _ _ h1 h2 => le_trans h2 h1⟩
  exact List.sorted_insertionSort _ l

theorem sorted_sortByKeyAsc (key : α → Int) (l : List α) :
    (sortByKeyAsc key l).Pairwise (fun a b => key a ≤ key b) := by
  letI : DecidableRel (fun a b : α => key a ≤ key b) := fun _ _ => Int.decLe _ _
  letI : IsTotal α (fun a b => key a ≤ key b) := ⟨fun a b => le_total (key a) (key b)⟩
  letI : IsTrans α (fun a b => key a ≤ key b) :=
    ⟨fun _ _ _ h1 h2 => le_trans h1 h2⟩
  exact List.sorted_insertionSort _ l

theorem perm_sortByKeyDesc (key : α → Int) (l : List α) :
    List.Perm (sortByKeyDesc key l) l :=
  List.perm_insertionSort _ l

theorem perm_sortByKeyAsc (key : α → Int) (l : List α) :
    List.Perm (sortByKeyAsc key l) l :=
  List.perm_insertionSort _ l

theorem paginate_eq_windowSpec (l : List α) (page limit : Int)
    (hp : 1 ≤ page) (hl : 1 ≤ limit) :
    paginate l page limit = some (windowSpec l page limit) := by
  have h0 : 0 ≤ (page - 1) * limit := mul_nonneg (by omega) (by omega)
  simp only [paginate, windowSpec]
  split_ifs with h1 h2 h3 h3 <;> try rfl
  · have : ((l.length : Int) - (page - 1) * limit).toNat =
        (min ((page - 1) * limit + limit) (l.length : Int) - (page - 1) * limit).toNat := by
      omega
    rw [this]
  · omega
  · have : ((page - 1) * limit + limit - (page - 1) * limit).toNat =
        (min ((page - 1) * limit + limit) (l.length : Int) - (page - 1) * limit).toNat := by
      omega
    rw [this]
  · omega

theorem paginate_isSome (l : List α) (page limit : Int)
    (hp : 1 ≤ page) (hl : 0 ≤ limit) :
    (paginate l page limit).isSome := by
  have h0 : 0 ≤ (page - 1) * limit := mul_nonneg (by omega) hl
  simp only [paginate]
  split_ifs with h1 h2 h3 h3 <;> simp <;> omega

theorem paginate_neg_page (l : List α) (page limit : Int)
    (hp : page ≤ 0) (hl : 1 ≤ limit) (hne : l ≠ []) :
    paginate l page limit = none := by
  have h0 : (page - 1) * limit < 0 := mul_neg_of_neg_of_pos (by omega) (by omega)
  have h1 : 1 ≤ l.length := List.length_pos.mpr hne
  have h1' : (1 : Int) ≤ (l.length : Int) := by exact_mod_cast h1
  simp only [paginate]
  split_ifs with ha hb hc <;> first | rfl | omega

theorem paginate_total (l : List α) (page limit : Int) (data : List α) (total : Int)
    (h : paginate l page limit = some (data, total)) : total = (l.length : Int) := by
  simp only [paginate] at h
  split_ifs at h <;> simp_all

theorem paginate_sublist (l : List α) (page limit : Int) (data : List α) (total : Int)
    (h : paginate l page limit = some (data, total)) : data.Sublist l := by
  simp only [paginate] at h
  split_ifs at h <;>
    first
    | exact Option.noConfusion h
    | (simp only [Option.some.injEq, Prod.mk.injEq] at h
       rw [← h.1]
       first
       | exact List.nil_sublist l
       | exact (List.take_sublist _ _).trans (List.drop_sublist _ _))

theorem teapotMatches_iff (q : TeapotQuery) (t : Teapot) :
    teapotMatches q t = true ↔
      (∀ m, q.material = some m → t.material = m) ∧
      (∀ st, q.style = some st → t.style = st) := by
  unfold teapotMatches
  cases hm : q.material <;> cases hs : q.style <;> simp

theorem teaMatches_iff (q : TeaQuery) (t : Tea) :
    teaMatches q t = true ↔
      (∀ ty, q.type = some ty → t.type = ty) ∧
      (∀ c, q.caffeineLevel = some c → t.caffeineLevel = c) := by
  unfold teaMatches
  cases ht : q.type <;> cases hc : q.caffeineLevel <;> simp

theorem brewMatches_iff (q : BrewQuery) (b : Brew) :
    brewMatches q b = true ↔
      (∀ st, q.status = some st → b.status = st) ∧
      (∀ tid, q.teapotId = some tid → b.teapotId = tid) ∧
      (∀ tid, q.teaId = some tid → b.teaId = tid) := by
  unfold brewMatches
  cases hs : q.status <;> cases hp : q.teapotId <;> cases ht : q.teaId <;>
    simp [and_assoc]

/-! Concrete fixture data used by the witness theorems. -/

/-- A concrete teapot, created at time 1. -/
def wTeapot1 : Teapot := ⟨"t1", "My Kyusu", "clay", 350, "kyusu", none, 1, 1⟩

/-- A concrete teapot, created at time 2. -/
def wTeapot2 : Teapot := ⟨"t2", "Classic", "ceramic", 1200, "english", none, 2, 2⟩

/-- A concrete tea with steep temperature 80. -/
def wTea1 : Tea := ⟨"e1", "Dragon Well", "green", none, "medium", 80, 120, none, 1, 1⟩

/-- A concrete brew in teapot `t1` with tea `e1`. -/
def wBrew1 : Brew := ⟨"b1", "t1", "e1", "preparing", 80, none, 3, none, 3, 3⟩

/-- A concrete steep of brew `b1`. -/
def wSteep1 : Steep := ⟨"s1", "b1", 1, 30, none, none, 4⟩

/-- A concrete store holding the fixture records. -/
def wStore : MemoryStore :=
  ⟨[("t1", wTeapot1), ("t2", wTeapot2)], [("e1", wTea1)], [("b1", wBrew1)],
   [("s1", wSteep1)]⟩

/-- A teapot query with no filters, first page. -/
def wTeapotQuery : TeapotQuery := ⟨1, 20, none, none⟩

/-- A tea query with no filters, first page. -/
def wTeaQuery : TeaQuery := ⟨1, 20, none, none⟩

/-- A brew query with no filters, first page. -/
def wBrewQuery : BrewQuery := ⟨1, 20, none, none, none⟩

/-! The claims. -/

/-- C1: every store list operation with `page ≥ 1` and `limit ≥ 1` returns
(not panics) exactly the window `[(page-1)*limit, (page-1)*limit+limit)`
of its sorted filtered set, together with the true filtered total: an empty
slice with the true total when the window start is at or beyond the count,
otherwise the window with its end clipped to the count (`windowSpec` states
that window in the specification's words). -/
theorem claim_C1_pagination_window (s : MemoryStore)
    (qT : TeapotQuery) (qE : TeaQuery) (qB : BrewQuery)
    (tid bid : String) (page limit : Int)
    (hT1 : 1 ≤ qT.page) (hT2 : 1 ≤ qT.limit)
    (hE1 : 1 ≤ qE.page) (hE2 : 1 ≤ qE.limit)
    (hB1 : 1 ≤ qB.page) (hB2 : 1 ≤ qB.limit)
    (h1 : 1 ≤ page) (h2 : 1 ≤ limit) :
    s.listTeapots qT = some (windowSpec (s.teapotsFilteredSorted qT) qT.page qT.limit) ∧
    s.listTeas qE = some (windowSpec (s.teasFilteredSorted qE) qE.page qE.limit) ∧
    s.listBrews qB = some (windowSpec (s.brewsFilteredSorted qB) qB.page qB.limit) ∧
    s.listBrewsByTeapot tid page limit =
      some (windowSpec (s.brewsOfTeapotSorted tid) page limit) ∧
    s.listSteepsByBrew bid page limit =
      some (windowSpec (s.steepsOfBrewSorted bid) page limit) :=
  ⟨paginate_eq_windowSpec _ _ _ hT1 hT2, paginate_eq_windowSpec _ _ _ hE1 hE2,
   paginate_eq_windowSpec _ _ _ hB1 hB2, paginate_eq_windowSpec _ _ _ h1 h2,
   paginate_eq_windowSpec _ _ _ h1 h2⟩

/-- Witness for C1 at the concrete fixture store and first-page queries. -/
theorem claim_C1_pagination_window_witness :
    (1 ≤ wTeapotQuery.page ∧ 1 ≤ wTeapotQuery.limit ∧ 1 ≤ (1 : Int) ∧ 1 ≤ (20 : Int)) ∧
    (wStore.listTeapots wTeapotQuery =
      some (windowSpec (wStore.teapotsFilteredSorted wTeapotQuery)
        wTeapotQuery.page wTeapotQuery.limit) ∧
     wStore.listTeas wTeaQuery =
      some (windowSpec (wStore.teasFilteredSorted wTeaQuery)
        wTeaQuery.page wTeaQuery.limit) ∧
     wStore.listBrews wBrewQuery =
      some (windowSpec (wStore.brewsFilteredSorted wBrewQuery)
        wBrewQuery.page wBrewQuery.limit) ∧
     wStore.listBrewsByTeapot "t1" 1 20 =
      some (windowSpec (wStore.brewsOfTeapotSorted "t1") 1 20) ∧
     wStore.listSteepsByBrew "b1" 1 20 =
      some (windowSpec (wStore.steepsOfBrewSorted "b1") 1 20)) :=
  ⟨⟨by decide, by decide, by decide, by decide⟩,
   claim_C1_pagination_window wStore wTeapotQuery wTeaQuery wBrewQuery "t1" "b1" 1 20
     (by decide) (by decide) (by decide) (by decide) (by decide) (by decide)
     (by decide) (by decide)⟩

/-- C2: every returned teapot, tea or brew page is ordered newest-first
(each element's `createdAt` is not after its predecessor's), while every
returned steep page is ordered ascending by `steepNumber`. -/
theorem claim_C2_sort_order (s : MemoryStore)
    (qT : TeapotQuery) (qE : TeaQuery) (qB : BrewQuery)
    (tid bid : String) (page limit : Int) :
    (∀ data total, s.listTeapots qT = some (data, total) →
       data.Chain' (fun a b => b.createdAt ≤ a.createdAt)) ∧
    (∀ data total, s.listTeas qE = some (data, total) →
       data.Chain' (fun a b => b.createdAt ≤ a.createdAt)) ∧
    (∀ data total, s.listBrews qB = some (data, total) →
       data.Chain' (fun a b => b.createdAt ≤ a.createdAt)) ∧
    (∀ data total, s.listBrewsByTeapot tid page limit = some (data, total) →
       data.Chain' (fun a b => b.createdAt ≤ a.createdAt)) ∧
    (∀ data total, s.listSteepsByBrew bid page limit = some (data, total) →
       data.Chain' (fun a b => a.steepNumber ≤ b.steepNumber)) := by
  refine ⟨fun data total h => ?_, fun data total h => ?_, fun data total h => ?_,
    fun data total h => ?_, fun data total h => ?_⟩
  · exact (((sorted_sortByKeyDesc _ _).sublist
      (paginate_sublist _ _ _ _ _ h))).chain'
  · exact (((sorted_sortByKeyDesc _ _).sublist
      (paginate_sublist _ _ _ _ _ h))).chain'
  · exact (((sorted_sortByKeyDesc _ _).sublist
      (paginate_sublist _ _ _ _ _ h))).chain'
  · exact (((sorted_sortByKeyDesc _ _).sublist
      (paginate_sublist _ _ _ _ _ h))).chain'
  · exact (((sorted_sortByKeyAsc _ _).sublist
      (paginate_sublist _ _ _ _ _ h))).chain'

/-- Witness for C2: the fixture store's teapot page is newest-first and its
steep page is ascending by steep number. -/
theorem claim_C2_sort_order_witness :
    (wStore.listTeapots wTeapotQuery = some ([wTeapot2, wTeapot1], 2) ∧
     List.Chain' (fun a b => b.createdAt ≤ a.createdAt) [wTeapot2, wTeapot1]) ∧
    (wStore.listSteepsByBrew "b1" 1 20 = some ([wSteep1], 1) ∧
     List.Chain' (fun a b : Steep => a.steepNumber ≤ b.steepNumber) [wSteep1]) :=
  ⟨⟨by decide,
    (claim_C2_sort_order wStore wTeapotQuery wTeaQuery wBrewQuery "t1" "b1" 1 20).1
      [wTeapot2, wTeapot1] 2 (by decide)⟩,
   ⟨by decide,
    (claim_C2_sort_order wStore wTeapotQuery wTeaQuery wBrewQuery "t1" "b1" 1 20).2.2.2.2
      [wSteep1] 1 (by decide)⟩⟩

/-- C3: an entry is kept in a list query's filtered set iff it is one of the
stored entries and it equals every non-nil filter field of the query
(material/style for teapots, type/caffeineLevel for teas, and
status/teapotId/teaId for brews); the returned total is the count of the
filtered set, taken before pagination slicing. -/
theorem claim_C3_filters (s : MemoryStore)
    (qT : TeapotQuery) (qE : TeaQuery) (qB : BrewQuery) :
    ((∀ t, t ∈ (mapValues s.teapots).filter (teapotMatches qT) ↔
        t ∈ mapValues s.teapots ∧
        (∀ m, qT.material = some m → t.material = m) ∧
        (∀ st, qT.style = some st → t.style = st)) ∧
     ∀ data total, s.listTeapots qT = some (data, total) →
       total = (((mapValues s.teapots).filter (teapotMatches qT)).length : Int)) ∧
    ((∀ t, t ∈ (mapValues s.teas).filter (teaMatches qE) ↔
        t ∈ mapValues s.teas ∧
        (∀ ty, qE.type = some ty → t.type = ty) ∧
        (∀ c, qE.caffeineLevel = some c → t.caffeineLevel = c)) ∧
     ∀ data total, s.listTeas qE = some (data, total) →
       total = (((mapValues s.teas).filter (teaMatches qE)).length : Int)) ∧
    ((∀ b, b ∈ (mapValues s.brews).filter (brewMatches qB) ↔
        b ∈ mapValues s.brews ∧
        (∀ st, qB.status = some st → b.status = st) ∧
        (∀ tid, qB.teapotId = some tid → b.teapotId = tid) ∧
        (∀ tid, qB.teaId = some tid → b.teaId = tid)) ∧
     ∀ data total, s.listBrews qB = some (data, total) →
       total = (((mapValues s.brews).filter (brewMatches qB)).length : Int)) := by
  refine ⟨⟨fun t => ?_, fun data total h => ?_⟩, ⟨fun t => ?_, fun data total h => ?_⟩,
    ⟨fun b => ?_, fun data total h => ?_⟩⟩
  · rw [List.mem_filter, teapotMatches_iff]
  · rw [paginate_total _ _ _ _ _ h]
    exact Nat.cast_inj.mpr ((perm_sortByKeyDesc _ _).length_eq)
  · rw [List.mem_filter, teaMatches_iff]
  · rw [paginate_total _ _ _ _ _ h]
    exact Nat.cast_inj.mpr ((perm_sortByKeyDesc _ _).length_eq)
  · rw [List.mem_filter, brewMatches_iff]
  · rw [paginate_total _ _ _ _ _ h]
    exact Nat.cast_inj.mpr ((perm_sortByKeyDesc _ _).length_eq)

/-- Witness for C3 at a concrete filtered query (`material=clay`): the kept
entry matches the filter and the reported total is the filtered count. -/
theorem claim_C3_filters_witness :
    (wTeapot1 ∈ (mapValues wStore.teapots).filter
        (teapotMatches ⟨1, 20, some "clay", none⟩) ↔
      wTeapot1 ∈ mapValues wStore.teapots ∧
      (∀ m, (⟨1, 20, some "clay", none⟩ : TeapotQuery).material = some m →
        wTeapot1.material = m) ∧
      (∀ st, (⟨1, 20, some "clay", none⟩ : TeapotQuery).style = some st →
        wTeapot1.style = st)) ∧
    (wStore.listTeapots ⟨1, 20, some "clay", none⟩ = some ([wTeapot1], 1) ∧
     (1 : Int) = (((mapValues wStore.teapots).filter
        (teapotMatches ⟨1, 20, some "clay", none⟩)).length : Int)) :=
  ⟨(claim_C3_filters wStore ⟨1, 20, some "clay", none⟩ wTeaQuery wBrewQuery).1.1 wTeapot1,
   by decide,
   (claim_C3_filters wStore ⟨1, 20, some "clay", none⟩ wTeaQuery wBrewQuery).1.2
     [wTeapot1] 1 (by decide)⟩

/-- C4: with effective `limit ≥ 1` and `total ≥ 0`, the handlers' reported
`totalPages` is `(total + limit - 1) / limit` in (Go, truncating) integer
arithmetic with the `< 0` clamp never firing, and it is exactly
`ceil(total / limit)` — characterized by `limit*(tp-1) < total ≤ limit*tp`
together with `tp ≥ 0`; in particular it is `0` when `total = 0` and `1`
when `1 ≤ total ≤ limit`. -/
theorem claim_C4_totalPages (total limit : Int) (h0 : 0 ≤ total) (h1 : 1 ≤ limit) :
    totalPagesCalc total limit = Int.tdiv (total + limit - 1) limit ∧
    0 ≤ totalPagesCalc total limit ∧
    total ≤ limit * totalPagesCalc total limit ∧
    limit * (totalPagesCalc total limit - 1) < total ∧
    (total = 0 → totalPagesCalc total limit = 0) ∧
    (1 ≤ total → total ≤ limit → totalPagesCalc total limit = 1) := by
  have hnum : 0 ≤ total + limit - 1 := by omega
  have htd : Int.tdiv (total + limit - 1) limit = (total + limit - 1) / limit :=
    Int.tdiv_eq_ediv hnum (by omega)
  have hqnn : 0 ≤ (total + limit - 1) / limit := Int.ediv_nonneg hnum (by omega)
  have hkey : limit * ((total + limit - 1) / limit) + (total + limit - 1) % limit =
      total + limit - 1 := Int.ediv_add_emod _ _
  have hr0 : 0 ≤ (total + limit - 1) % limit := Int.emod_nonneg _ (by omega)
  have hr1 : (total + limit - 1) % limit < limit := Int.emod_lt_of_pos _ (by omega)
  have hcalc : totalPagesCalc total limit = (total + limit - 1) / limit := by
    rw [totalPagesCalc, htd]
    exact if_neg (by omega)
  refine ⟨by rw [hcalc, htd], by rw [hcalc]; exact hqnn, ?_, ?_, ?_, ?_⟩
  · rw [hcalc]; omega
  · rw [hcalc]
    have hexp : limit * ((total + limit - 1) / limit - 1) =
        limit * ((total + limit - 1) / limit) - limit := by ring
    omega
  · intro ht
    rw [hcalc]
    by_contra hne
    have hq1 : 1 ≤ (total + limit - 1) / limit := by omega
    have : limit * 1 ≤ limit * ((total + limit - 1) / limit) :=
      mul_le_mul_of_nonneg_left hq1 (by omega)
    omega
  · intro ht1 ht2
    rw [hcalc]
    have hlow : 1 ≤ (total + limit - 1) / limit := by
      by_contra hq0
      have : limit * ((total + limit - 1) / limit) ≤ limit * 0 :=
        mul_le_mul_of_nonneg_left (by omega) (by omega)
      omega
    have hhigh : (total + limit - 1) / limit < 2 := by
      by_contra hq2
      have : limit * 1 ≤ limit * ((total + limit - 1) / limit - 1) :=
        mul_le_mul_of_nonneg_left (by omega) (by omega)
      have hexp : limit * ((total + limit - 1) / limit - 1) =
          limit * ((total + limit - 1) / limit) - limit := by ring
      omega
    omega

/-- Witness for C4 at `total = 5`, `limit = 2` (three pages). -/
theorem claim_C4_totalPages_witness :
    (0 ≤ (5 : Int) ∧ 1 ≤ (2 : Int)) ∧
    (totalPagesCalc 5 2 = Int.tdiv (5 + 2 - 1) 2 ∧
     0 ≤ totalPagesCalc 5 2 ∧
     5 ≤ 2 * totalPagesCalc 5 2 ∧
     2 * (totalPagesCalc 5 2 - 1) < 5 ∧
     ((5 : Int) = 0 → totalPagesCalc 5 2 = 0) ∧
     (1 ≤ (5 : Int) → (5 : Int) ≤ 2 → totalPagesCalc 5 2 = 1)) :=
  ⟨⟨by decide, by decide⟩, claim_C4_totalPages 5 2 (by decide) (by decide)⟩

theorem createSteepH_ok (s : MemoryStore) (bid : String) (req : CreateSteepRequest)
    (newID : String) (now : Time) (hb : (s.getBrew bid).isSome) :
    s.createSteepH bid true req newID now =
      (.ok ⟨newID, bid, (countSteepsByBrew s.steeps bid : Int) + 1,
        req.durationSeconds, req.rating, req.notes, now⟩,
       s.createSteep ⟨newID, bid, (countSteepsByBrew s.steeps bid : Int) + 1,
        req.durationSeconds, req.rating, req.notes, now⟩) := by
  obtain ⟨b, hb'⟩ := Option.isSome_iff_exists.mp hb
  simp [MemoryStore.createSteepH, hb']

theorem createSteepH_step (s : MemoryStore) (bid : String) (req : CreateSteepRequest)
    (newID : String) (now : Time) (hb : (s.getBrew bid).isSome)
    (hfresh : newID ∉ mapKeys s.steeps) :
    ∃ st s', s.createSteepH bid true req newID now = (.ok st, s') ∧
      st.steepNumber = (countSteepsByBrew s.steeps bid : Int) + 1 ∧
      st.brewId = bid ∧ st.id = newID ∧
      (s'.getBrew bid).isSome ∧
      countSteepsByBrew s'.steeps bid = countSteepsByBrew s.steeps bid + 1 ∧
      mapKeys s'.steeps = mapKeys s.steeps ++ [newID] := by
  refine ⟨_, _, createSteepH_ok s bid req newID now hb, rfl, rfl, rfl, hb, ?_, ?_⟩
  · simp only [MemoryStore.createSteep]
    rw [countSteepsByBrew_insert_fresh _ _ _ _ hfresh]
    simp
  · simp only [MemoryStore.createSteep]
    rw [mapKeys_insert_fresh _ _ _ hfresh]

/-- C5: a successful steep creation against an existing brew assigns
`steepNumber = CountSteepsByBrew(brew) + 1`, and three sequential creations
against a brew with no prior steeps (fresh, pairwise distinct ids) yield
steep numbers 1, 2, 3. -/
theorem claim_C5_steep_numbering (s : MemoryStore) (bid : String)
    (req1 req2 req3 : CreateSteepRequest) (id1 id2 id3 : String) (t1 t2 t3 : Time)
    (hb : (s.getBrew bid).isSome) :
    (∀ req newID now, ∃ st s', s.createSteepH bid true req newID now = (.ok st, s') ∧
        st.steepNumber = (countSteepsByBrew s.steeps bid : Int) + 1) ∧
    (countSteepsByBrew s.steeps bid = 0 →
     id1 ∉ mapKeys s.steeps → id2 ∉ mapKeys s.steeps → id3 ∉ mapKeys s.steeps →
     id2 ≠ id1 → id3 ≠ id1 → id3 ≠ id2 →
     ∃ st1 s1 st2 s2 st3 s3,
       s.createSteepH bid true req1 id1 t1 = (.ok st1, s1) ∧
       s1.createSteepH bid true req2 id2 t2 = (.ok st2, s2) ∧
       s2.createSteepH bid true req3 id3 t3 = (.ok st3, s3) ∧
       st1.steepNumber = 1 ∧ st2.steepNumber = 2 ∧ st3.steepNumber = 3) := by
  constructor
  · intro req newID now
    exact ⟨_, _, createSteepH_ok s bid req newID now hb, rfl⟩
  · intro h0 hf1 hf2 hf3 hd21 hd31 hd32
    obtain ⟨st1, s1, e1, hn1, _, _, hb1, hc1, hk1⟩ :=
      createSteepH_step s bid req1 id1 t1 hb hf1
    have hf2' : id2 ∉ mapKeys s1.steeps := by
      rw [hk1]; simp [hf2, hd21]
    obtain ⟨st2, s2, e2, hn2, _, _, hb2, hc2, hk2⟩ :=
      createSteepH_step s1 bid req2 id2 t2 hb1 hf2'
    have hf3' : id3 ∉ mapKeys s2.steeps := by
      rw [hk2, hk1]; simp [hf3, hd31, hd32]
    obtain ⟨st3, s3, e3, hn3, _, _, _, _, _⟩ :=
      createSteepH_step s2 bid req3 id3 t3 hb2 hf3'
    refine ⟨st1, s1, st2, s2, st3, s3, e1, e2, e3, ?_, ?_, ?_⟩
    · rw [hn1, h0]; rfl
    · rw [hn2, hc1, h0]; rfl
    · rw [hn3, hc2, hc1, h0]; rfl

/-- Witness for C5: three steep creations against the fixture brew `b1` in a
store with no prior steeps. -/
theorem claim_C5_steep_numbering_witness :
    ((MemoryStore.mk wStore.teapots wStore.teas wStore.brews []).getBrew "b1").isSome ∧
    (∃ st s', (MemoryStore.mk wStore.teapots wStore.teas wStore.brews
        []).createSteepH "b1" true ⟨30, none, none⟩ "s1" 4 = (.ok st, s') ∧
      st.steepNumber = (countSteepsByBrew
        (MemoryStore.mk wStore.teapots wStore.teas wStore.brews []).steeps "b1" : Int) + 1) ∧
    (∃ st1 s1 st2 s2 st3 s3,
      (MemoryStore.mk wStore.teapots wStore.teas wStore.brews
        []).createSteepH "b1" true ⟨30, none, none⟩ "s1" 4 = (.ok st1, s1) ∧
      s1.createSteepH "b1" true ⟨45, none, none⟩ "s2" 5 = (.ok st2, s2) ∧
      s2.createSteepH "b1" true ⟨60, none, none⟩ "s3" 6 = (.ok st3, s3) ∧
      st1.steepNumber = 1 ∧ st2.steepNumber = 2 ∧ st3.steepNumber = 3) := by
  have h := claim_C5_steep_numbering
    (MemoryStore.mk wStore.teapots wStore.teas wStore.brews [])
    "b1" ⟨30, none, none⟩ ⟨45, none, none⟩ ⟨60, none, none⟩ "s1" "s2" "s3" 4 5 6
    (by decide)
  exact ⟨by decide, h.1 ⟨30, none, none⟩ "s1" 4,
    h.2 (by decide) (by decide) (by decide) (by decide) (by decide) (by decide)
      (by decide)⟩

/-- C6: a brew created without an explicit `waterTempCelsius` against an
existing teapot and tea stores the referenced tea's `steepTempCelsius` and
the fixed initial status `preparing`; the default is computed once — any
later tea update leaves the stored brew (and hence its temperature)
untouched. -/
theorem claim_C6_brew_default_temp (s : MemoryStore) (req : CreateBrewRequest)
    (newID : String) (now : Time) (tea : Tea)
    (htp : (s.getTeapot req.teapotId).isSome)
    (hte : s.getTea req.teaId = some tea)
    (hw : req.waterTempCelsius = none) :
    ∃ brew s', s.brewCreateH req newID now = (.ok brew, s') ∧
      brew.waterTempCelsius = tea.steepTempCelsius ∧
      brew.status = BrewPreparing ∧
      s'.getBrew newID = some brew ∧
      ∀ tea', (s'.updateTea tea').getBrew newID = some brew := by
  obtain ⟨tp, htp'⟩ := Option.isSome_iff_exists.mp htp
  refine ⟨⟨newID, req.teapotId, req.teaId, BrewPreparing, tea.steepTempCelsius,
      req.notes, now, none, now, now⟩,
    s.createBrew ⟨newID, req.teapotId, req.teaId, BrewPreparing, tea.steepTempCelsius,
      req.notes, now, none, now, now⟩, ?_, rfl, rfl, ?_, fun tea' => ?_⟩
  · simp [MemoryStore.brewCreateH, htp', hte, hw]
  · exact mapLookup_insert_self _ _ _
  · exact mapLookup_insert_self _ _ _

/-- Witness for C6: creating a brew with no explicit temperature against the
fixture teapot `t1` and tea `e1` (steep temperature 80). -/
theorem claim_C6_brew_default_temp_witness :
    ((wStore.getTeapot "t1").isSome ∧ wStore.getTea "e1" = some wTea1 ∧
      (⟨"t1", "e1", none, none⟩ : CreateBrewRequest).waterTempCelsius = none) ∧
    (∃ brew s', wStore.brewCreateH ⟨"t1", "e1", none, none⟩ "b2" 9 = (.ok brew, s') ∧
      brew.waterTempCelsius = wTea1.steepTempCelsius ∧
      brew.status = BrewPreparing ∧
      s'.getBrew "b2" = some brew ∧
      ∀ tea', (s'.updateTea tea').getBrew "b2" = some brew) :=
  ⟨⟨by decide, by decide, rfl⟩,
   claim_C6_brew_default_temp wStore ⟨"t1", "e1", none, none⟩ "b2" 9 wTea1
     (by decide) (by decide) rfl⟩

/-- C7: a brew creation whose `teapotId` or `teaId` does not exist fails
with a validation-category error (not not-found) and leaves the store
unchanged. -/
theorem claim_C7_brew_create_ref_validation (s : MemoryStore)
    (req : CreateBrewRequest) (newID : String) (now : Time)
    (h : s.getTeapot req.teapotId = none ∨ s.getTea req.teaId = none) :
    ∃ e, s.brewCreateH req newID now = (.error e, s) ∧
      e.code = ErrCode.validationError := by
  rcases h with h | h
  · exact ⟨⟨.validationError, "Teapot not found"⟩,
      by simp [MemoryStore.brewCreateH, h], rfl⟩
  · rcases htp : s.getTeapot req.teapotId with _ | tp
    · exact ⟨⟨.validationError, "Teapot not found"⟩,
        by simp [MemoryStore.brewCreateH, htp], rfl⟩
    · exact ⟨⟨.validationError, "Tea not found"⟩,
        by simp [MemoryStore.brewCreateH, htp, h], rfl⟩

/-- Witness for C7: creating a brew against a teapot id absent from the
fixture store. -/
theorem claim_C7_brew_create_ref_validation_witness :
    (wStore.getTeapot "missing" = none ∨ wStore.getTea "e1" = none) ∧
    (∃ e, wStore.brewCreateH ⟨"missing", "e1", none, none⟩ "b2" 9 = (.error e, wStore) ∧
      e.code = ErrCode.validationError) :=
  ⟨Or.inl (by decide),
   claim_C7_brew_create_ref_validation wStore ⟨"missing", "e1", none, none⟩ "b2" 9
     (Or.inl (by decide))⟩

/-- C8: for every entity type, `Get` immediately after `Create` of a record
with that identifier returns that record (found), and `Get` after `Delete`
of an identifier returns not-found (steeps have no delete operation in the
store, so the delete half ranges over teapots, teas and brews). -/
theorem claim_C8_get_create_delete (s : MemoryStore) (tp : Teapot) (te : Tea)
    (br : Brew) (st : Steep) (id : String) :
    ((s.createTeapot tp).getTeapot tp.id = some tp) ∧
    ((s.createTea te).getTea te.id = some te) ∧
    ((s.createBrew br).getBrew br.id = some br) ∧
    ((s.createSteep st).getSteep st.id = some st) ∧
    ((s.deleteTeapot id).1.getTeapot id = none) ∧
    ((s.deleteTea id).1.getTea id = none) ∧
    ((s.deleteBrew id).1.getBrew id = none) := by
  refine ⟨mapLookup_insert_self _ _ _, mapLookup_insert_self _ _ _,
    mapLookup_insert_self _ _ _, mapLookup_insert_self _ _ _, ?_, ?_, ?_⟩
  · by_cases h : (mapLookup id s.teapots).isSome
    · simp only [MemoryStore.deleteTeapot]
      rw [if_pos h]
      exact mapLookup_delete_self _ _
    · simp only [MemoryStore.deleteTeapot]
      rw [if_neg h]
      exact Option.not_isSome_iff_eq_none.mp h
  · by_cases h : (mapLookup id s.teas).isSome
    · simp only [MemoryStore.deleteTea]
      rw [if_pos h]
      exact mapLookup_delete_self _ _
    · simp only [MemoryStore.deleteTea]
      rw [if_neg h]
      exact Option.not_isSome_iff_eq_none.mp h
  · by_cases h : (mapLookup id s.brews).isSome
    · simp only [MemoryStore.deleteBrew]
      rw [if_pos h]
      exact mapLookup_delete_self _ _
    · simp only [MemoryStore.deleteBrew]
      rw [if_neg h]
      exact Option.not_isSome_iff_eq_none.mp h

/-- C9: patching an existing teapot, tea or brew changes exactly the non-nil
request fields to the supplied values (`getD`/`or` state "supplied value if
present, prior value if omitted"), refreshes `updatedAt` to the current
time — not earlier than the prior `updatedAt` — and leaves `id` and
`createdAt` unchanged. -/
theorem claim_C9_patch_frame (s : MemoryStore) (id : String) (now : Time)
    (reqT : PatchTeapotRequest) (reqE : PatchTeaRequest) (reqB : PatchBrewRequest)
    (oldT : Teapot) (oldE : Tea) (oldB : Brew)
    (hT : s.getTeapot id = some oldT) (hTt : oldT.updatedAt ≤ now)
    (hE : s.getTea id = some oldE) (hEt : oldE.updatedAt ≤ now)
    (hB : s.getBrew id = some oldB) (hBt : oldB.updatedAt ≤ now) :
    (s.teapotPatchH id true reqT now =
        (.ok (applyTeapotPatch oldT reqT now),
         s.updateTeapot (applyTeapotPatch oldT reqT now)) ∧
     (applyTeapotPatch oldT reqT now).id = oldT.id ∧
     (applyTeapotPatch oldT reqT now).createdAt = oldT.createdAt ∧
     oldT.updatedAt ≤ (applyTeapotPatch oldT reqT now).updatedAt ∧
     (applyTeapotPatch oldT reqT now).name = reqT.name.getD oldT.name ∧
     (applyTeapotPatch oldT reqT now).material = reqT.material.getD oldT.material ∧
     (applyTeapotPatch oldT reqT now).capacityMl = reqT.capacityMl.getD oldT.capacityMl ∧
     (applyTeapotPatch oldT reqT now).style = reqT.style.getD oldT.style ∧
     (applyTeapotPatch oldT reqT now).description = reqT.description.or oldT.description) ∧
    (s.teaPatchH id true reqE now =
        (.ok (applyTeaPatch oldE reqE now), s.updateTea (applyTeaPatch oldE reqE now)) ∧
     (applyTeaPatch oldE reqE now).id = oldE.id ∧
     (applyTeaPatch oldE reqE now).createdAt = oldE.createdAt ∧
     oldE.updatedAt ≤ (applyTeaPatch oldE reqE now).updatedAt ∧
     (applyTeaPatch oldE reqE now).name = reqE.name.getD oldE.name ∧
     (applyTeaPatch oldE reqE now).type = reqE.type.getD oldE.type ∧
     (applyTeaPatch oldE reqE now).origin = reqE.origin.or oldE.origin ∧
     (applyTeaPatch oldE reqE now).caffeineLevel =
        reqE.caffeineLevel.getD oldE.caffeineLevel ∧
     (applyTeaPatch oldE reqE now).steepTempCelsius =
        reqE.steepTempCelsius.getD oldE.steepTempCelsius ∧
     (applyTeaPatch oldE reqE now).steepTimeSeconds =
        reqE.steepTimeSeconds.getD oldE.steepTimeSeconds ∧
     (applyTeaPatch oldE reqE now).description = reqE.description.or oldE.description) ∧
    (s.brewPatchH id true reqB now =
        (.ok (applyBrewPatch oldB reqB now), s.updateBrew (applyBrewPatch oldB reqB now)) ∧
     (applyBrewPatch oldB reqB now).id = oldB.id ∧
     (applyBrewPatch oldB reqB now).createdAt = oldB.createdAt ∧
     oldB.updatedAt ≤ (applyBrewPatch oldB reqB now).updatedAt ∧
     (applyBrewPatch oldB reqB now).status = reqB.status.getD oldB.status ∧
     (applyBrewPatch oldB reqB now).notes = reqB.notes.or oldB.notes ∧
     (applyBrewPatch oldB reqB now).completedAt = reqB.completedAt.or oldB.completedAt) := by
  refine ⟨⟨?_, rfl, rfl, hTt, ?_, ?_, ?_, ?_, ?_⟩,
    ⟨?_, rfl, rfl, hEt, ?_, ?_, ?_, ?_, ?_, ?_, ?_⟩,
    ⟨?_, rfl, rfl, hBt, ?_, ?_, ?_⟩⟩
  · simp [MemoryStore.teapotPatchH, hT]
  · cases hv : reqT.name <;> simp [applyTeapotPatch, hv]
  · cases hv : reqT.material <;> simp [applyTeapotPatch, hv]
  · cases hv : reqT.capacityMl <;> simp [applyTeapotPatch, hv]
  · cases hv : reqT.style <;> simp [applyTeapotPatch, hv]
  · cases hv : reqT.description <;> simp [applyTeapotPatch, hv]
  · simp [MemoryStore.teaPatchH, hE]
  · cases hv : reqE.name <;> simp [applyTeaPatch, hv]
  · cases hv : reqE.type <;> simp [applyTeaPatch, hv]
  · cases hv : reqE.origin <;> simp [applyTeaPatch, hv]
  · cases hv : reqE.caffeineLevel <;> simp [applyTeaPatch, hv]
  · cases hv : reqE.steepTempCelsius <;> simp [applyTeaPatch, hv]
  · cases hv : reqE.steepTimeSeconds <;> simp [applyTeaPatch, hv]
  · cases hv : reqE.description <;> simp [applyTeaPatch, hv]
  · simp [MemoryStore.brewPatchH, hB]
  · cases hv : reqB.status <;> simp [applyBrewPatch, hv]
  · cases hv : reqB.notes <;> simp [applyBrewPatch, hv]
  · cases hv : reqB.completedAt <;> simp [applyBrewPatch, hv]

/-- Witness for C9: patch requests against the fixture records (the fixture
ids coincide so one id serves all three tables via a store holding each
record under the same key). -/
theorem claim_C9_patch_frame_witness :
    ((MemoryStore.mk [("x", wTeapot1)] [("x", wTea1)] [("x", wBrew1)] []).getTeapot "x" =
        some wTeapot1 ∧ wTeapot1.updatedAt ≤ (10 : Int) ∧
     (MemoryStore.mk [("x", wTeapot1)] [("x", wTea1)] [("x", wBrew1)] []).getTea "x" =
        some wTea1 ∧ wTea1.updatedAt ≤ (10 : Int) ∧
     (MemoryStore.mk [("x", wTeapot1)] [("x", wTea1)] [("x", wBrew1)] []).getBrew "x" =
        some wBrew1 ∧ wBrew1.updatedAt ≤ (10 : Int)) ∧
    ((applyTeapotPatch wTeapot1 ⟨some "New", none, none, none, none⟩ 10).name =
        (some "New").getD wTeapot1.name ∧
     (applyTeapotPatch wTeapot1 ⟨some "New", none, none, none, none⟩ 10).material =
        (none : Option String).getD wTeapot1.material ∧
     (applyTeapotPatch wTeapot1 ⟨some "New", none, none, none, none⟩ 10).createdAt =
        wTeapot1.createdAt ∧
     wTeapot1.updatedAt ≤
        (applyTeapotPatch wTeapot1 ⟨some "New", none, none, none, none⟩ 10).updatedAt) := by
  have h := claim_C9_patch_frame
    (MemoryStore.mk [("x", wTeapot1)] [("x", wTea1)] [("x", wBrew1)] []) "x" 10
    ⟨some "New", none, none, none, none⟩ ⟨none, none, none, none, none, none, none⟩
    ⟨none, none, none⟩ wTeapot1 wTea1 wBrew1
    (by decide) (by decide) (by decide) (by decide) (by decide) (by decide)
  exact ⟨⟨by decide, by decide, by decide, by decide, by decide, by decide⟩,
    h.1.2.2.2.2.1, h.1.2.2.2.2.2.1, h.1.2.2.1, h.1.2.2.2.1⟩

/-- C10: the store's pagination slice is in bounds whenever `page ≥ 1`
(and `limit ≥ 0`); with `page ≤ 0`, a positive limit and at least one
matching record the computed start index is negative and the slice panics
(`none`); the list handlers establish `page ≥ 1` by defaulting a zero page
to 1 (query binding admits only zero or `≥ 1`), so the panic branch is
unreachable through them. -/
theorem claim_C10_slice_safety (l : List Teapot) (page limit : Int)
    (s : MemoryStore) (qB : BrewQuery) (qT : TeapotQuery) :
    (1 ≤ page → 0 ≤ limit → (paginate l page limit).isSome) ∧
    (page ≤ 0 → 1 ≤ limit → l ≠ [] → paginate l page limit = none) ∧
    ((qB.page = 0 ∨ 1 ≤ qB.page) → (qB.limit = 0 ∨ 1 ≤ qB.limit) →
      (s.brewListH qB).isSome) ∧
    ((qT.page = 0 ∨ 1 ≤ qT.page) → (qT.limit = 0 ∨ 1 ≤ qT.limit) →
      (s.teapotListH qT).isSome) := by
  refine ⟨paginate_isSome l page limit,
    fun hp hl hne => paginate_neg_page l page limit hp hl hne,
    fun hp hl => ?_, fun hp hl => ?_⟩
  · have h1 : 1 ≤ effectivePage qB.page := by
      unfold effectivePage; rcases hp with h | h <;> split <;> omega
    have h2 : 0 ≤ effectiveLimit qB.limit := by
      unfold effectiveLimit; rcases hl with h | h <;> split <;> omega
    have hsm : (s.listBrews
        { qB with page := effectivePage qB.page, limit := effectiveLimit qB.limit }).isSome :=
      paginate_isSome _ _ _ h1 h2
    obtain ⟨⟨data, total⟩, hdt⟩ := Option.isSome_iff_exists.mp hsm
    simp only [MemoryStore.brewListH]
    rw [hdt]
    rfl
  · have h1 : 1 ≤ effectivePage qT.page := by
      unfold effectivePage; rcases hp with h | h <;> split <;> omega
    have h2 : 0 ≤ effectiveLimit qT.limit := by
      unfold effectiveLimit; rcases hl with h | h <;> split <;> omega
    have hsm : (s.listTeapots
        { qT with page := effectivePage qT.page, limit := effectiveLimit qT.limit }).isSome :=
      paginate_isSome _ _ _ h1 h2
    obtain ⟨⟨data, total⟩, hdt⟩ := Option.isSome_iff_exists.mp hsm
    simp only [MemoryStore.teapotListH]
    rw [hdt]
    rfl

/-- Witness for C10: a safely paginated concrete call, the panicking
negative-page call, and the fixture handler calls with a zero page. -/
theorem claim_C10_slice_safety_witness :
    ((1 ≤ (1 : Int) ∧ 0 ≤ (20 : Int)) ∧
     (paginate [wTeapot1] 1 20).isSome) ∧
    (((0 : Int) ≤ 0 ∧ 1 ≤ (20 : Int) ∧ [wTeapot1] ≠ []) ∧
     paginate [wTeapot1] 0 20 = none) ∧
    (((0 : Int) = 0 ∨ 1 ≤ (0 : Int)) ∧
     (wStore.brewListH ⟨0, 0, none, none, none⟩).isSome ∧
     (wStore.teapotListH ⟨0, 0, none, none⟩).isSome) := by
  have h := claim_C10_slice_safety [wTeapot1] 0 20 wStore
    ⟨0, 0, none, none, none⟩ ⟨0, 0, none, none⟩
  have h' := claim_C10_slice_safety [wTeapot1] 1 20 wStore
    ⟨0, 0, none, none, none⟩ ⟨0, 0, none, none⟩
  exact ⟨⟨⟨by decide, by decide⟩, h'.1 (by decide) (by decide)⟩,
    ⟨⟨by decide, by decide, by decide⟩,
     h.2.1 (by decide) (by decide) (by decide)⟩,
    ⟨Or.inl rfl, h.2.2.1 (Or.inl rfl) (Or.inl rfl),
     h.2.2.2 (Or.inl rfl) (Or.inl rfl)⟩⟩

end TeapotFixture
